import Mathlib

/-!
Verification of the QSZ007 tomography driver (src/qsz007/driver.py and
src/qsz007/ip.py) against its natural-language specification.

The Python code is shallowly embedded: pure computations become Lean
functions over ℤ/ℕ, mutation of the driver object becomes explicit state
passing on `TomoState`, and Python exceptions become an `Option String` /
`Except String` result carrying the raised message.  The driver's real
arithmetic (`np.round` of products and quotients of the integer inputs
with the decimal constants `0.001`, fabric frequency, scale factor) is
modelled exactly over the rationals: a quantity `a / b` is kept as the
integer pair `(a, b)` and `int(np.round(a / b))` (numpy rounds half to
even) becomes `roundHalfEvenDiv a b`.  Decimal parameters such as the
fabric clock frequency and the amplitude scale enter as `ℚ` values whose
numerator and denominator feed those integer computations.  32-bit
register writes go through `np.uint32`, embedded as reduction modulo 2^32.
-/

namespace QSZ007

/-- `int(np.round(a / b))` for integers `a`, `b`: round half to even, as
numpy does.  For `b = 0` Python would fault (float division by zero); the
embedding returns `0` there, and no theorem depends on that case. -/
def roundHalfEvenDiv (a b : ℤ) : ℤ :=
  if b = 0 then 0
  else
    let a2 := if b < 0 then -a else a
    let b2 := if b < 0 then -b else b
    let n := a2.fdiv b2
    let r2 := 2 * (a2 - n * b2)
    if r2 < b2 then n
    else if b2 < r2 then n + 1
    else if n % 2 = 0 then n else n + 1

/-- `AxisTomography.TRIGGER_LIMIT` (driver.py line 120): maximum number of
triggers per cycle; also sizes the DMA buffers in `__init__`. -/
def TRIGGER_LIMIT : ℕ := 10000

/-- `AbsDacDriver.DAC_MAXV = 2**15 - 2` (driver.py line 20). -/
def DAC_MAXV : ℤ := 32766

/-- `np.uint32(v)` as applied by `SocIp.__setattr__` (ip.py lines 31-44)
whenever a name in `REGISTERS` is assigned: the value is reduced mod 2^32. -/
def u32 (v : ℤ) : ℕ := (v % 4294967296).toNat

/-- The driver state touched by `set_waveform`: the five device registers it
writes (through `SocIp.__setattr__`, hence as 32-bit words) plus the plain
Python attribute `trigger_num` (not in `REGISTERS`, stored unwrapped). -/
structure TomoState where
  trigger_num : ℤ
  tri_limit : ℕ
  tx_tag_fall : ℕ
  tx_period : ℕ
  tx_ratio_rise : ℕ
  tx_ratio_fall : ℕ
  deriving Repr, DecidableEq

/-- Message of the trigger-limit RuntimeError in `set_waveform`
(driver.py line 194). -/
def trigLimitMsg : String :=
  "The number of triggers per cycle exceeds the limit (10000)."

/-- `AxisTomography.set_waveform` (driver.py lines 183-208), embedded as a
state transformer.  The second component is `some msg` when the Python code
raises `RuntimeError(msg)`; in that case the returned state is the state the
object is left in by the partially executed method (only `trigger_num` has
been assigned, on line 192, before any validation).  `ffab` is the value of
`self['dac']['f_fabric']` (MHz, as stored by `SOC.__config_rfdc`), and
`int(np.round(x * 1000 * ffab))` is embedded as
`roundHalfEvenDiv (x * 1000 * ffab.num) ffab.den`; similarly the ratio
`(DAC_MAXV * max_scal * 2**16) / clk` becomes the integer fraction
`(DAC_MAXV * max_scal.num * 65536) / (max_scal.den * clk)`. -/
def setWaveform (rise_time_ms fall_time_ms : ℤ) (max_scal : ℚ)
    (trigger_rate_hz : ℤ) (ffab : ℚ) (s : TomoState) : TomoState × Option String :=
  let tn : ℤ := roundHalfEvenDiv (rise_time_ms * trigger_rate_hz) 1000
  let s1 : TomoState := { s with trigger_num := tn }
  if tn > (TRIGGER_LIMIT : ℤ) then (s1, some trigLimitMsg)
  else if fall_time_ms < 50 then (s1, some "fall_time_ms must be at least 50ms.")
  else if ¬ (0 ≤ max_scal ∧ max_scal ≤ 1) then (s1, some "max_scal must be between 0 and 1.")
  else if trigger_rate_hz > 100000 then (s1, some "trigger_rate_hz must be at most 100000Hz.")
  else
    let rise_clk : ℤ := roundHalfEvenDiv (rise_time_ms * 1000 * ffab.num) ffab.den
    let fall_clk : ℤ := roundHalfEvenDiv (fall_time_ms * 1000 * ffab.num) ffab.den
    let ratio_rise : ℤ := roundHalfEvenDiv (DAC_MAXV * max_scal.num * 65536) (max_scal.den * rise_clk)
    let ratio_fall : ℤ := roundHalfEvenDiv (DAC_MAXV * max_scal.num * 65536) (max_scal.den * fall_clk) * (-1)
    ({ s1 with
        tri_limit := u32 tn
        tx_tag_fall := u32 (rise_clk - 1)
        tx_period := u32 (rise_clk + fall_clk - 1)
        tx_ratio_rise := u32 ratio_rise
        tx_ratio_fall := u32 ratio_fall }, none)

/-- The combined validation predicate of `set_waveform` (driver.py lines
193-200): the call raises iff one of these bounds is violated. -/
def setWaveformViolation (rise_time_ms fall_time_ms : ℤ) (max_scal : ℚ)
    (trigger_rate_hz : ℤ) : Prop :=
  roundHalfEvenDiv (rise_time_ms * trigger_rate_hz) 1000 > (TRIGGER_LIMIT : ℤ)
  ∨ fall_time_ms < 50
  ∨ ¬ (0 ≤ max_scal ∧ max_scal ≤ 1)
  ∨ trigger_rate_hz > 100000

instance (a b : ℤ) (c : ℚ) (d : ℤ) : Decidable (setWaveformViolation a b c d) := by
  unfold setWaveformViolation; infer_instance

/-- DMA transfer lengths computed by the worker `__run_tomography`
(driver.py lines 380-382) from the stored `trigger_num`: bytes for the
time, DC and graphy transfers. -/
def dmaLengths (interp : ℕ) (s : TomoState) : ℤ × ℤ × ℤ :=
  (s.trigger_num * 4, s.trigger_num * interp * 2, s.trigger_num * 1024 * 2)

/-- `AxisTomography.get_state` (driver.py lines 239-247): reads the `rx_state`
register (a 32-bit word) and returns `(error, cycle_cnt)` with
`error = (state >> 4) != 0` and `cycle_cnt = state & 0xF`. -/
def get_state (state : ℕ) : Bool × ℕ :=
  (decide (state >>> 4 ≠ 0), state &&& 0xF)

/-- A concrete all-zero driver state, used for concrete evaluations. -/
def s0 : TomoState :=
  { trigger_num := 0, tri_limit := 0, tx_tag_fall := 0, tx_period := 0
    tx_ratio_rise := 0, tx_ratio_fall := 0 }

example : (setWaveform 150 50 1 100000 (mkRat 1536 5) s0).2 = some trigLimitMsg := by decide
example : (setWaveform 150 50 1 100000 (mkRat 1536 5) s0).1.trigger_num = 15000 := by decide
example : (setWaveform 100 50 1 100000 (mkRat 1536 5) s0).2 = none := by decide
example : (setWaveform 100 50 1 100000 (mkRat 1536 5) s0).1.tri_limit = 10000 := by decide
example : (setWaveform 100 50 1 100000 (mkRat 1536 5) s0).1.tx_tag_fall = 30719999 := by decide
example : (setWaveform 100 50 1 100000 (mkRat 1536 5) s0).1.tx_ratio_rise = 70 := by decide
example : (setWaveform 100 50 1 100000 (mkRat 1536 5) s0).1.tx_ratio_fall = u32 (-140) := by decide
example : get_state 32 = (true, 0) := by decide

/-! ## Worker loop (`AxisTomography.__run_tomography`, driver.py lines 369-417)

One run of the cycle loop (lines 390-411) is embedded as a pure function
over the sequence of hardware error flags observed by `get_state` while
waiting on each cycle index.  The stop flag is never set during the run
(the claim under scrutiny concerns the error path, not cancellation), so the
inner polling loop always terminates by the cycle counter changing, yielding
the pair `(error, cycle)` of `get_state`; only the error flag matters here.
Data batches are abstracted by the cycle index that `__data_process` is
called with; error-queue entries are the exact message strings of line 402.
The function returning a value at all embeds the worker thread finishing the
run normally (the `except`/`finally` of lines 412-417 then set `start = 0`
and `done_flag`), i.e. the worker does not crash. -/

/-- The f-string pushed on `error_queue` at driver.py line 402. -/
def cycleErrMsg (i : ℕ) : String :=
  "Error occurred during tomography at cycle " ++ toString i ++ "."

/-- The cycle loop of `__run_tomography`, starting at cycle counter `i` with
`n` cycles left (`n = cycle_target - i`).  Returns the error-queue entries
pushed and the list of cycle indices passed to `__data_process`
(as `ctcle_cnt - 1` after the increment, i.e. the just-finished index). -/
def workerGo (hwErr : ℕ → Bool) : ℕ → ℕ → List String × List ℕ
  | 0, _ => ([], [])
  | n + 1, i =>
    let rest := workerGo hwErr n (i + 1)
    ((if hwErr i then [cycleErrMsg i] else []) ++ rest.1, i :: rest.2)

/-- One run of the worker for `cycle_target` cycles: error-queue entries and
processed cycle indices, in order. -/
def runTomography (cycle_target : ℕ) (hwErr : ℕ → Bool) : List String × List ℕ :=
  workerGo hwErr cycle_target 0

example : runTomography 3 (fun i => i == 1) = (["Error occurred during tomography at cycle 1."], [0, 1, 2]) := by decide

/-! ## Data decoding (`AxisTomography.__data_process`, driver.py lines 330-367)

The waveform (graphy) slice indices computed for each of the `tag_cnt`
decoded events.  `interp` is the `INTERPOLATION` generic; `gclk` is
`self.graphy_clk = 1024 // INTERPOLATION` from `__init__` (line 127).
Raw time samples are `np.uint32`; under the non-decreasing precondition of
the claims their quotient differences never wrap, so ℕ subtraction agrees
with the numpy arithmetic.  The Python clamp
`if delta_clk > self.graphy_clk: delta_clk = self.graphy_clk` is `min`. -/

/-- The per-event loop of `__data_process` (lines 344-365), reduced to the
`(start_index, end_index)` pair of each event's graphy slice.  State:
`startClk` is `start_clk`, `preQ` the previous quotient, `first` marks
`i = 0` (where `delta_clk = 0`). -/
def dpLoop (interp gclk : ℕ) : ℕ → ℕ → Bool → List ℕ → List (ℕ × ℕ)
  | _, _, _, [] => []
  | startClk, preQ, first, t :: rest =>
    let nowQ := t / interp
    let residue := t % interp
    let delta := if first then 0 else min (nowQ - preQ) gclk
    let startClk2 := startClk + delta
    let startIndex := startClk2 * interp + residue
    (startIndex, startIndex + 1000) :: dpLoop interp gclk startClk2 nowQ false rest

/-- Graphy-slice index pairs of one `__data_process` call on the raw time
samples `times` (the first `tag_cnt` entries of `time_buf`). -/
def dataProcessIndices (interp : ℕ) (times : List ℕ) : List (ℕ × ℕ) :=
  dpLoop interp (1024 / interp) 0 0 true times

example : dataProcessIndices 8 [5, 300, 2000] = [(5, 1005), (300, 1300), (1320, 2320)] := by decide

/-! ## Polling (`AxisTomography.poll_data`, driver.py lines 271-294)

The loop is driven by wall-clock time: each iteration first drains the error
queue without blocking, then waits (bounded by `timeout`) on the data queue,
breaking when no data arrives.  The embedding freezes both queues as the
lists present when the call starts, and represents time by `iters`, the
number of times the `while` condition `totaltime < 0 or time.time() <
time_end` evaluates to true: `totaltime = 0` gives `iters = 0` (the deadline
has already passed at the first check), a negative `totaltime` gives an
unbounded `iters`, and any positive `totaltime` gives `iters ≥ 1` in every
real execution.  The stop flag is taken as never set. -/

/-- Result of `poll_data`: Python returns `(False, errmsg)` or
`(True, batches)`. -/
inductive PollResult (α : Type) where
  | failure (msg : String) : PollResult α
  | success (batches : List α) : PollResult α
  deriving Repr, DecidableEq

/-- The `while` loop of `poll_data`, accumulating `new_data`. -/
def pollLoop {α : Type} (errq : List String) : List α → List α → ℕ → PollResult α
  | _, acc, 0 => .success acc.reverse
  | dataq, acc, n + 1 =>
    match errq with
    | e :: _ => .failure e
    | [] =>
      match dataq with
      | [] => .success acc.reverse
      | d :: rest => pollLoop errq rest (d :: acc) n

/-- `poll_data`, on frozen queues and `iters` passes of the time check. -/
def pollData {α : Type} (errq : List String) (dataq : List α) (iters : ℕ) : PollResult α :=
  pollLoop errq dataq [] iters

example : pollData ["boom"] [1, 2, 3] 5 = .failure "boom" := by decide
example : pollData ([] : List String) [1, 2, 3] 5 = .success [1, 2, 3] := by decide
example : pollData ["boom"] [1, 2, 3] 0 = .success [] := by decide

/-! ## Connectivity tracing (`Metadata`, ip.py lines 78-306)

`Metadata.trace_bus` resolves a `(block, port)` endpoint to the other
endpoints on its bus (via the `BusParser` pins/nets maps, with the starting
port and ILA ports removed); `mod2type` maps a block to its IP type and
`get_param(block, 'NUM_MI')` gives a broadcaster's output count.  These
lookups are embedded as fields of `Metadata`; the traversal algorithms
`trace_back` and `trace_forward` are embedded over them, with a fuel
argument standing for the unbounded Python loops (exhausted fuel yields the
distinguished error "fuel", which no run of the original code produces on
any graph on which the loop terminates). -/

/-- The connectivity oracle: `bus b p` is `trace_bus(b, p)` (the list of
`(block, port)` endpoints, already split and rejoined exactly as lines
220-224 and 275-279 of ip.py do), `mod2type` the block-type map, and
`numMI b` the value of `get_param(b, 'NUM_MI')`. -/
structure Metadata where
  bus : String → String → List (String × String)
  mod2type : String → String
  numMI : String → ℕ

/-- The pass-through types of `trace_back` handled by rewriting the port to
`'S_AXIS'` (ip.py line 228). -/
def tbPassKinds : List String :=
  ["axis_clock_converter", "axis_dwidth_converter", "axis_register_slice", "axis_broadcaster"]

/-- The remaining pass-through types of `trace_back` (ip.py lines 230-238),
each with its own port rewrite. -/
def tbSpecialKinds : List String :=
  ["axis_cdcsync_v1", "sg_translator", "axis_resampler_2x1_v1", "axis_sg_pulse"]

/-- Message of the RuntimeError at ip.py line 240 (`start` is the original
`start_block`, `nb` the unrecognized block). -/
def tbErrMsg (start nb : String) : String :=
  "failed to trace back from " ++ start ++ " - unrecognized IP block " ++ nb

/-- `Metadata.trace_back` (ip.py lines 189-240).  `Except.ok none` embeds
`return None` (unconnected port, line 218); the code takes `trace_result[0]`
(line 221-224), so extra endpoints beyond the first are ignored.  `start` is
the original `start_block` kept for the error message. -/
def trace_back (md : Metadata) (goals : List String) (start : String) :
    ℕ → String → String → Except String (Option (String × String × String))
  | 0, _, _ => .error "fuel"
  | fuel + 1, blk, prt =>
    match md.bus blk prt with
    | [] => .ok none
    | (nb, np) :: _ =>
      let nt := md.mod2type nb
      if nt ∈ goals then .ok (some (nb, np, nt))
      else if nt ∈ tbPassKinds then trace_back md goals start fuel nb "S_AXIS"
      else if nt = "axis_cdcsync_v1" then trace_back md goals start fuel nb ("s" ++ np.drop 1)
      else if nt = "sg_translator" then trace_back md goals start fuel nb "s_tproc_axis"
      else if nt = "axis_resampler_2x1_v1" then trace_back md goals start fuel nb "s_axis"
      else if nt = "axis_sg_pulse" then trace_back md goals start fuel nb "S_AXIS"
      else .error (tbErrMsg start nb)

/-- `"M%02d_AXIS" % j` (ip.py line 285), for `j < 100` as in any real
broadcaster. -/
def mAxisName (j : ℕ) : String :=
  (if j < 10 then "M0" else "M") ++ toString j ++ "_AXIS"

/-- The loop of `Metadata.trace_forward` (ip.py lines 271-303) over the
`to_check` queue, accumulating `found` and `dead_ends`.  An empty
`trace_bus` result makes line 276's `trace_result[0]` raise IndexError,
embedded as `.error "IndexError"`. -/
def tfLoop (md : Metadata) (goals : List String) :
    ℕ → List (String × String) → List (String × String × String) → List String →
    Except String (List (String × String × String) × List String)
  | _, [], found, dead => .ok (found, dead)
  | 0, _ :: _, _, _ => .error "fuel"
  | fuel + 1, (blk, prt) :: rest, found, dead =>
    match md.bus blk prt with
    | [] => .error "IndexError"
    | (nb, np) :: _ =>
      let nt := md.mod2type nb
      if nt ∈ goals then tfLoop md goals fuel rest (found ++ [(nb, np, nt)]) dead
      else if nt = "axis_broadcaster" then
        tfLoop md goals fuel (rest ++ (List.range (md.numMI nb)).map (fun j => (nb, mAxisName j))) found dead
      else if nt = "axis_clock_converter" then tfLoop md goals fuel (rest ++ [(nb, "M_AXIS")]) found dead
      else if nt = "axis_register_slice" then tfLoop md goals fuel (rest ++ [(nb, "M_AXIS")]) found dead
      else if nt = "axis_register_slice_nb" then tfLoop md goals fuel (rest ++ [(nb, "m_axis")]) found dead
      else if nt = "smartconnect" ∨ nt = "axi_interconnect" then tfLoop md goals fuel (rest ++ [(nb, "M00_AXI")]) found dead
      else if nt = "axis_data_fifo" then tfLoop md goals fuel (rest ++ [(nb, "M_AXIS")]) found dead
      else if nt = "fifo_generator" then tfLoop md goals fuel (rest ++ [(nb, "M_AXIS")]) found dead
      else if nt = "axis_chirp_mux" then tfLoop md goals fuel (rest ++ [(nb, "M00_AXIS")]) found dead
      else if nt = "axis_wf_mux" then tfLoop md goals fuel (rest ++ [(nb, "M00_AXIS")]) found dead
      else tfLoop md goals fuel rest found (dead ++ [nb])

/-- Rendering of a found `(block, port, type)` triple, standing for Python's
tuple repr inside the `%s`-formatted diagnostic. -/
def tripleStr (t : String × String × String) : String :=
  "(" ++ t.1 ++ ", " ++ t.2.1 ++ ", " ++ t.2.2 ++ ")"

/-- Message of the RuntimeError at ip.py line 305: it interpolates the start
block, the goal types, the `found` list and the `dead_ends` list. -/
def tfErrMsg (start : String) (goals : List String)
    (found : List (String × String × String)) (dead : List String) : String :=
  "traced forward from " ++ start ++ " for one block of type [" ++
    String.intercalate ", " goals ++ "], but found [" ++
    String.intercalate ", " (found.map tripleStr) ++ "] (and dead ends [" ++
    String.intercalate ", " dead ++ "])"

/-- `Metadata.trace_forward` (ip.py lines 242-306): run the queue loop from
`[(start_block, start_port)]`, then apply the final expected-count check of
lines 304-305. -/
def trace_forward (md : Metadata) (goals : List String) (fuel : ℕ)
    (start_block start_port : String) (block_number : ℤ) :
    Except String (List (String × String × String)) :=
  match tfLoop md goals fuel [(start_block, start_port)] [] [] with
  | .error e => .error e
  | .ok (found, dead) =>
    if block_number ≠ -1 ∧ (found.length : ℤ) ≠ block_number then
      .error (tfErrMsg start_block goals found dead)
    else .ok found

/-- A concrete small graph.  Forward: `tomo/M0_ADC` feeds a clock converter
`cc0`, which feeds the DMA block `dma0`.  Backward: `tomo/S0_ADC` is driven
through clock converter `cc1` by the RF data converter `rfdc`.  `tomo/S1` is
unconnected; a block `odd0` of unrecognized type hangs off `tomo/M1`. -/
def mdEx : Metadata where
  bus b p :=
    if b = "tomo" ∧ p = "M0_ADC" then [("cc0", "S_AXIS")]
    else if b = "cc0" ∧ p = "M_AXIS" then [("dma0", "S_AXIS"), ("ila0", "probe")]
    else if b = "tomo" ∧ p = "S0_ADC" then [("cc1", "M_AXIS")]
    else if b = "cc1" ∧ p = "S_AXIS" then [("rfdc", "m00_axis")]
    else if b = "tomo" ∧ p = "M1" then [("odd0", "s_in")]
    else []
  mod2type b :=
    if b = "cc0" ∨ b = "cc1" then "axis_clock_converter"
    else if b = "dma0" then "axi_dma"
    else if b = "rfdc" then "usp_rf_data_converter"
    else if b = "odd0" then "mystery_ip"
    else "axis_tomography"
  numMI _ := 0

example : trace_forward mdEx ["axi_dma"] 5 "tomo" "M0_ADC" 1 = .ok [("dma0", "S_AXIS", "axi_dma")] := rfl
example : trace_back mdEx ["usp_rf_data_converter"] "tomo" 5 "tomo" "S0_ADC" =
    .ok (some ("rfdc", "m00_axis", "usp_rf_data_converter")) := rfl
example : trace_back mdEx ["axi_dma"] "tomo" 5 "tomo" "S1" = .ok none := rfl
example : trace_back mdEx ["axi_dma"] "tomo" 5 "tomo" "M1" = .error (tbErrMsg "tomo" "odd0") := rfl

/-! ## Claim C1 -/

/-- C1, counterexample.  With fabric clock 307.2 MHz (`f_fabric = 307.2 =
1536/5`), the call `set_waveform(150, 50, 1.0, 100000)` does not succeed:
the derived `trigger_num = round(150 * 100000 * 0.001) = 15000` exceeds
`TRIGGER_LIMIT = 10000`, so the very first validation raises RuntimeError.
The claim asserts the call succeeds and goes on to derive `tx_ratio_rise`. -/
theorem c1_counterexample :
    (setWaveform 150 50 1 100000 (mkRat 1536 5) s0).2 = some trigLimitMsg ∧
    (setWaveform 150 50 1 100000 (mkRat 1536 5) s0).1.trigger_num = 15000 ∧
    15000 > (TRIGGER_LIMIT : ℤ) := by
  decide

/-- C1, amended: for a channel whose fabric clock is 307.2 MHz, calling
`set_waveform(rise_time_ms=150, fall_time_ms=50, max_scal=1.0,
trigger_rate_hz=100000)` derives exactly `trigger_num =
round(150 * 100000 * 0.001) = 15000` as an exact integer; since that
exceeds `TRIGGER_LIMIT = 10000`, the call raises the trigger-limit
RuntimeError instead of succeeding, and no register value (in particular
no `tx_ratio_rise`) is derived or written. -/
theorem c1_amended (s : TomoState) :
    setWaveform 150 50 1 100000 (mkRat 1536 5) s =
      ({ s with trigger_num := 15000 }, some trigLimitMsg) := by
  rfl

/-! ## Claim C2 -/

/-- C2: for every input to `set_waveform`, if any validation fails (derived
trigger count above `TRIGGER_LIMIT`, `fall_time_ms < 50`, `max_scal`
outside `[0, 1]`, or `trigger_rate_hz > 100000`), the call raises
synchronously (the result carries a message) and none of the five device
registers (`tri_limit`, `tx_tag_fall`, `tx_period`, `tx_ratio_rise`,
`tx_ratio_fall`) is written: each retains its prior value. -/
theorem c2_no_write_on_violation (rise fall : ℤ) (scal : ℚ) (rate : ℤ)
    (ffab : ℚ) (s : TomoState)
    (h : setWaveformViolation rise fall scal rate) :
    (setWaveform rise fall scal rate ffab s).2.isSome = true ∧
    (setWaveform rise fall scal rate ffab s).1.tri_limit = s.tri_limit ∧
    (setWaveform rise fall scal rate ffab s).1.tx_tag_fall = s.tx_tag_fall ∧
    (setWaveform rise fall scal rate ffab s).1.tx_period = s.tx_period ∧
    (setWaveform rise fall scal rate ffab s).1.tx_ratio_rise = s.tx_ratio_rise ∧
    (setWaveform rise fall scal rate ffab s).1.tx_ratio_fall = s.tx_ratio_fall := by
  simp only [setWaveform]
  rcases h with h | h | h | h <;> split_ifs <;> simp_all [setWaveformViolation]

/-- C2, witness: the default call `set_waveform(150, 50, 1.0, 100000)`
violates the trigger-limit bound, raises, and leaves every register of the
all-zero state unchanged. -/
theorem c2_witness :
    setWaveformViolation 150 50 1 100000 ∧
    ((setWaveform 150 50 1 100000 (mkRat 1536 5) s0).2.isSome = true ∧
     (setWaveform 150 50 1 100000 (mkRat 1536 5) s0).1.tri_limit = s0.tri_limit ∧
     (setWaveform 150 50 1 100000 (mkRat 1536 5) s0).1.tx_tag_fall = s0.tx_tag_fall ∧
     (setWaveform 150 50 1 100000 (mkRat 1536 5) s0).1.tx_period = s0.tx_period ∧
     (setWaveform 150 50 1 100000 (mkRat 1536 5) s0).1.tx_ratio_rise = s0.tx_ratio_rise ∧
     (setWaveform 150 50 1 100000 (mkRat 1536 5) s0).1.tx_ratio_fall = s0.tx_ratio_fall) :=
  ⟨by decide, c2_no_write_on_violation 150 50 1 100000 (mkRat 1536 5) s0 (by decide)⟩

/-! ## Claim C5 -/

/-- C5, counterexample: for the 32-bit state value 32 (= bit 5 set, bit 4
clear), `get_state` reports the error flag as set although bit 4 of the
register is not set — the code tests `(state >> 4) != 0`, not bit 4. -/
theorem c5_counterexample :
    (get_state 32).1 = true ∧ Nat.testBit 32 4 = false := by decide

/-- C5, amended: for every 32-bit value of the state register, `get_state`
returns a cycle count equal to the low 4 bits (the cycle counter mod 16)
and an error flag that is true exactly when any of bits 4..31 is set
(i.e. `state ≥ 16`), not only when bit 4 is. -/
theorem c5_amended (state : ℕ) (h : state < 4294967296) :
    (get_state state).2 = state % 16 ∧ ((get_state state).1 = true ↔ 16 ≤ state) := by
  unfold get_state
  constructor
  · have h15 := Nat.and_pow_two_sub_one_eq_mod state 4
    norm_num at h15
    simpa using h15
  · simp only [decide_eq_true_eq, Nat.shiftRight_eq_div_pow]
    norm_num
    omega

/-- C5, witness: the amended statement at the concrete register value 37
(cycle counter 5, error flag set). -/
theorem c5_witness :
    37 < 4294967296 ∧
    ((get_state 37).2 = 37 % 16 ∧ ((get_state 37).1 = true ↔ 16 ≤ 37)) :=
  ⟨by decide, c5_amended 37 (by decide)⟩

/-! ## Claim C8 -/

/-- C8, counterexample: a call with `totaltime = 0` never enters the polling
loop (`time.time() < time_end` is already false at the first check, i.e.
zero iterations), so even with a fatal error queued it returns
`(True, [])` — success with no data — instead of the queued error. -/
theorem c8_counterexample :
    pollData ["fatal"] [[(1 : ℕ)]] 0 ≠ PollResult.failure "fatal" ∧
    pollData ["fatal"] [[(1 : ℕ)]] 0 = PollResult.success [] := by decide

/-- C8, amended: for every call to `poll_data` whose polling loop performs
at least one iteration (as it does whenever `totaltime` is negative, and in
any real execution with positive `totaltime`), if a fatal error has been
queued on the error queue, the call returns that error with the failure
indication instead of data: no data batches are delivered by that call. -/
theorem c8_amended {α : Type} (errq : List String) (dataq : List α)
    (iters : ℕ) (e : String) (tl : List String)
    (herr : errq = e :: tl) (hit : 1 ≤ iters) :
    pollData errq dataq iters = PollResult.failure e := by
  subst herr
  cases iters with
  | zero => omega
  | succ n => simp [pollData, pollLoop]

/-- C8, witness: with error "fatal" queued and three data batches waiting,
a call that polls once returns the failure, not the data. -/
theorem c8_witness :
    (["fatal"] = "fatal" :: ([] : List String)) ∧ 1 ≤ 1 ∧
    pollData ["fatal"] [[(1 : ℕ)], [2], [3]] 1 = PollResult.failure "fatal" :=
  ⟨rfl, by decide, c8_amended ["fatal"] [[(1 : ℕ)], [2], [3]] 1 "fatal" [] rfl (by decide)⟩

/-! ## Claim C9 -/

/-- C9: `set_waveform` is idempotent and deterministic — applied twice with
the same inputs (and the same resolved fabric clock), the second call
derives exactly the same register values and the same outcome, leaving the
state produced by the first call unchanged.  (This holds for all inputs,
valid or not, since every derived value is a function of the arguments and
`f_fabric` only.) -/
theorem c9_idempotent (rise fall : ℤ) (scal : ℚ) (rate : ℤ) (ffab : ℚ)
    (s : TomoState) :
    setWaveform rise fall scal rate ffab (setWaveform rise fall scal rate ffab s).1 =
      setWaveform rise fall scal rate ffab s := by
  cases s
  simp only [setWaveform]
  split_ifs <;> rfl

/-! ## Claim C10 -/

/-- C10: `set_waveform` assigns the stored `trigger_num` from the new inputs
before any validation, so every rejected call leaves `trigger_num` holding
the newly computed (possibly over-limit) value
`round(rise_time_ms * trigger_rate_hz * 0.001)`, and that value is what a
subsequent worker run uses to size its three DMA transfer lengths. -/
theorem c10_trigger_num_on_reject (rise fall : ℤ) (scal : ℚ) (rate : ℤ)
    (ffab : ℚ) (s : TomoState) (interp : ℕ)
    (h : (setWaveform rise fall scal rate ffab s).2.isSome = true) :
    (setWaveform rise fall scal rate ffab s).1.trigger_num =
      roundHalfEvenDiv (rise * rate) 1000 ∧
    dmaLengths interp (setWaveform rise fall scal rate ffab s).1 =
      (roundHalfEvenDiv (rise * rate) 1000 * 4,
       roundHalfEvenDiv (rise * rate) 1000 * interp * 2,
       roundHalfEvenDiv (rise * rate) 1000 * 1024 * 2) := by
  simp only [setWaveform] at h ⊢
  split_ifs at h ⊢ <;> simp_all [dmaLengths]

/-- C10, witness: `set_waveform(200, 50, 1.0, 100000)` is rejected (the new
trigger count 20000 exceeds the limit of 10000), yet the stored
`trigger_num` is 20000 and the worker would size its DMA transfers from it. -/
theorem c10_witness :
    (setWaveform 200 50 1 100000 (mkRat 1536 5) s0).2.isSome = true ∧
    ((setWaveform 200 50 1 100000 (mkRat 1536 5) s0).1.trigger_num =
        roundHalfEvenDiv (200 * 100000) 1000 ∧
      dmaLengths 8 (setWaveform 200 50 1 100000 (mkRat 1536 5) s0).1 =
        (roundHalfEvenDiv (200 * 100000) 1000 * 4,
         roundHalfEvenDiv (200 * 100000) 1000 * 8 * 2,
         roundHalfEvenDiv (200 * 100000) 1000 * 1024 * 2)) ∧
    roundHalfEvenDiv (200 * 100000) 1000 = 20000 ∧ 20000 > (TRIGGER_LIMIT : ℤ) :=
  ⟨by decide, c10_trigger_num_on_reject 200 50 1 100000 (mkRat 1536 5) s0 8 (by decide),
   by decide, by decide⟩

/-! ## Claim C3 -/

/-- The cycle indices processed by one worker run are always all of
`0 .. n-1`: the loop never exits early, whatever error flags are observed. -/
theorem workerGo_snd (hwErr : ℕ → Bool) :
    ∀ n i, (workerGo hwErr n i).2 = List.range' i n := by
  intro n
  induction n with
  | zero => intro i; rfl
  | succ n ih => intro i; simp [workerGo, ih (i + 1), List.range'_succ]

/-- Every cycle index in the processed window at which the error flag was
observed contributes its error message to the queue. -/
theorem workerGo_mem_fst (hwErr : ℕ → Bool) :
    ∀ n i j, i ≤ j → j < i + n → hwErr j = true →
      cycleErrMsg j ∈ (workerGo hwErr n i).1 := by
  intro n
  induction n with
  | zero => intro i j h1 h2 _; omega
  | succ n ih =>
    intro i j h1 h2 hj
    simp only [workerGo, List.mem_append]
    rcases Nat.eq_or_lt_of_le h1 with rfl | hgt
    · left; simp [hj]
    · right; exact ih (i + 1) j hgt (by omega) hj

/-- C3, counterexample: with the hardware error flag observed set on every
cycle, a 2-cycle run pushes the error message for cycle 0 but does **not**
abort the cycle loop — it also waits on, reports and processes cycle 1
(the `break` after the error push at driver.py line 403 is commented out).
If the loop aborted at the failing cycle 0, neither the cycle-1 message nor
the cycle-1 batch could exist. -/
theorem c3_counterexample :
    runTomography 2 (fun _ => true) =
      (["Error occurred during tomography at cycle 0.",
        "Error occurred during tomography at cycle 1."], [0, 1]) := by
  decide

/-- C3, amended: in every run of the worker loop, whenever the state
register's error bit is observed set while waiting on cycle index `i`, the
worker pushes a fatal error message naming the failing cycle index `i` onto
the error queue — but it does **not** abort the cycle loop: it goes on to
process every one of the `cycle_target` cycles.  The worker thread itself
does not crash (the run returns normally). -/
theorem c3_amended (cycle_target : ℕ) (hwErr : ℕ → Bool) (i : ℕ)
    (hlt : i < cycle_target) (herr : hwErr i = true) :
    cycleErrMsg i ∈ (runTomography cycle_target hwErr).1 ∧
    (runTomography cycle_target hwErr).2 = List.range cycle_target := by
  constructor
  · exact workerGo_mem_fst hwErr cycle_target 0 i (Nat.zero_le i) (by omega) herr
  · rw [runTomography, workerGo_snd, List.range_eq_range']

/-- C3, witness: a single-cycle run with the error flag set on cycle 0. -/
theorem c3_witness :
    0 < 1 ∧ (fun _ : ℕ => true) 0 = true ∧
    (cycleErrMsg 0 ∈ (runTomography 1 (fun _ => true)).1 ∧
     (runTomography 1 (fun _ => true)).2 = List.range 1) :=
  ⟨by decide, rfl, c3_amended 1 (fun _ => true) 0 (by decide) rfl⟩

/-! ## Claim C4 -/

/-- C4, counterexample.  Two traversal situations the claim calls fatal
resolution failures do not raise at all: (a) `trace_bus` yielding zero next
endpoints makes `trace_back` return `None` (ip.py line 218), not raise a
`TraceError`; (b) `trace_bus` yielding **two** next endpoints (here
`cc0/M_AXIS` is on a bus with both `dma0` and `ila0`) is not an error
either — the code silently follows `trace_result[0]` and succeeds. -/
theorem c4_counterexample :
    trace_back mdEx ["axi_dma"] "tomo" 1 "tomo" "S1" = Except.ok none ∧
    (mdEx.bus "cc0" "M_AXIS").length = 2 ∧
    trace_back mdEx ["axi_dma"] "cc0" 1 "cc0" "M_AXIS" =
      Except.ok (some ("dma0", "S_AXIS", "axi_dma")) :=
  ⟨rfl, rfl, rfl⟩

/-- C4, amended: at any `trace_back` traversal step, (a) if `trace_bus`
yields zero next endpoints the trace returns `None` without raising; (b) if
it yields one or more endpoints, only the **first** is considered — a
goal-typed first endpoint is returned whatever else is on the bus, and only
when the first endpoint's block type is neither a goal type nor one of the
fixed pass-through types does the trace fail, raising the fatal resolution
RuntimeError to the caller. -/
theorem c4_amended (md : Metadata) (goals : List String) (start : String)
    (fuel : ℕ) (blk prt : String) :
    (md.bus blk prt = [] →
      trace_back md goals start (fuel + 1) blk prt = Except.ok none) ∧
    (∀ nb np rest, md.bus blk prt = (nb, np) :: rest →
      (md.mod2type nb ∈ goals →
        trace_back md goals start (fuel + 1) blk prt =
          Except.ok (some (nb, np, md.mod2type nb))) ∧
      (md.mod2type nb ∉ goals → md.mod2type nb ∉ tbPassKinds →
        md.mod2type nb ∉ tbSpecialKinds →
        trace_back md goals start (fuel + 1) blk prt =
          Except.error (tbErrMsg start nb))) := by
  constructor
  · intro h
    simp [trace_back, h]
  · intro nb np rest h
    constructor
    · intro hg
      simp [trace_back, h, hg]
    · intro h1 h2 h3
      simp only [tbSpecialKinds, List.mem_cons, List.not_mem_nil, or_false, not_or] at h3
      simp [trace_back, h, h1, h2, h3.1, h3.2.1, h3.2.2]

/-- C4, witness for the amended statement: on the concrete graph, the
unrecognized block `odd0` of type `mystery_ip` reached from `tomo/M1` makes
the trace raise the resolution error. -/
theorem c4_witness :
    mdEx.bus "tomo" "M1" = [("odd0", "s_in")] ∧
    mdEx.mod2type "odd0" ∉ ["axi_dma"] ∧
    mdEx.mod2type "odd0" ∉ tbPassKinds ∧
    mdEx.mod2type "odd0" ∉ tbSpecialKinds ∧
    trace_back mdEx ["axi_dma"] "tomo" 1 "tomo" "M1" =
      Except.error (tbErrMsg "tomo" "odd0") :=
  ⟨rfl, by decide, by decide, by decide,
   ((c4_amended mdEx ["axi_dma"] "tomo" 0 "tomo" "M1").2 "odd0" "s_in" [] rfl).2
     (by decide) (by decide) (by decide)⟩

/-! ## Claim C7 -/

/-- C7: for every `trace_forward` call whose traversal loop completes with
matches `found` and dead ends `dead`, if an expected count is supplied
(`block_number ≠ -1`) then: a match count different from the expected count
raises an error whose diagnostic lists both the matches found and the dead
ends encountered (`tfErrMsg` interpolates both lists); otherwise the call
returns the list of found `(block, port, type)` matches. -/
theorem c7_expected_count (md : Metadata) (goals : List String) (fuel : ℕ)
    (sb sp : String) (n : ℤ) (found : List (String × String × String))
    (dead : List String)
    (hloop : tfLoop md goals fuel [(sb, sp)] [] [] = Except.ok (found, dead))
    (hn : n ≠ -1) :
    trace_forward md goals fuel sb sp n =
      if (found.length : ℤ) = n then Except.ok found
      else Except.error (tfErrMsg sb goals found dead) := by
  unfold trace_forward
  rw [hloop]
  by_cases hlen : (found.length : ℤ) = n <;> simp [hlen, hn]

/-- C7, witness: on the concrete graph, tracing forward from `tomo/M0_ADC`
for one `axi_dma` completes with exactly one match and no dead ends, and
the call returns it. -/
theorem c7_witness :
    tfLoop mdEx ["axi_dma"] 5 [("tomo", "M0_ADC")] [] [] =
      Except.ok ([("dma0", "S_AXIS", "axi_dma")], []) ∧
    (1 : ℤ) ≠ -1 ∧
    trace_forward mdEx ["axi_dma"] 5 "tomo" "M0_ADC" 1 =
      Except.ok [("dma0", "S_AXIS", "axi_dma")] :=
  ⟨rfl, by decide,
   by simpa using
     c7_expected_count mdEx ["axi_dma"] 5 "tomo" "M0_ADC" 1
       [("dma0", "S_AXIS", "axi_dma")] [] rfl (by decide)⟩

/-- The mismatch branch on the concrete graph: expecting two `axi_dma`
blocks where only one exists raises the diagnostic with the match and
dead-end lists. -/
example :
    trace_forward mdEx ["axi_dma"] 5 "tomo" "M0_ADC" 2 =
      Except.error (tfErrMsg "tomo" ["axi_dma"] [("dma0", "S_AXIS", "axi_dma")] []) := rfl

/-! ## Claim C6 -/

/-- Every slice produced by `__data_process` has end index exactly
`start index + 1000` (the fixed snippet length). -/
theorem dpLoop_snd (interp gclk : ℕ) :
    ∀ (ts : List ℕ) (sc pq : ℕ) (first : Bool),
      ∀ p ∈ dpLoop interp gclk sc pq first ts, p.2 = p.1 + 1000 := by
  intro ts
  induction ts with
  | nil => intro sc pq first p hp; simp [dpLoop] at hp
  | cons t rest ih =>
    intro sc pq first p hp
    simp only [dpLoop, List.mem_cons] at hp
    rcases hp with rfl | hp
    · rfl
    · exact ih _ _ false p hp

/-- Start-index bound for the loop after the first event: each step advances
`start_clk` by at most `gclk`, so after `ts.length` further events the start
index stays below `(sc + ts.length * gclk) * interp + interp`. -/
theorem dpLoop_fst_le (interp gclk : ℕ) (hi : 1 ≤ interp) :
    ∀ (ts : List ℕ) (sc pq : ℕ),
      ∀ p ∈ dpLoop interp gclk sc pq false ts,
        p.1 ≤ (sc + ts.length * gclk) * interp + (interp - 1) := by
  intro ts
  induction ts with
  | nil => intro sc pq p hp; simp [dpLoop] at hp
  | cons t rest ih =>
    intro sc pq p hp
    simp only [dpLoop, Bool.false_eq_true, if_false, List.mem_cons] at hp
    have hdelta : min (t / interp - pq) gclk ≤ gclk := Nat.min_le_right _ _
    rcases hp with rfl | hp
    · have hres : t % interp ≤ interp - 1 :=
        Nat.le_sub_one_of_lt (Nat.mod_lt t (by omega))
      have hsc : sc + min (t / interp - pq) gclk ≤ sc + (rest.length + 1) * gclk := by
        have : gclk ≤ (rest.length + 1) * gclk := Nat.le_mul_of_pos_left gclk (by omega)
        omega
      calc (sc + min (t / interp - pq) gclk) * interp + t % interp
          ≤ (sc + (rest.length + 1) * gclk) * interp + (interp - 1) :=
            Nat.add_le_add (Nat.mul_le_mul_right interp hsc) hres
        _ = (sc + (rest.length + 1) * gclk) * interp + (interp - 1) := rfl
    · have hb := ih (sc + min (t / interp - pq) gclk) (t / interp) p hp
      have hsc : sc + min (t / interp - pq) gclk + rest.length * gclk ≤
          sc + (rest.length + 1) * gclk := by
        have h1 : (rest.length + 1) * gclk = rest.length * gclk + gclk := by ring
        omega
      calc p.1 ≤ (sc + min (t / interp - pq) gclk + rest.length * gclk) * interp + (interp - 1) := hb
        _ ≤ (sc + (rest.length + 1) * gclk) * interp + (interp - 1) :=
            Nat.add_le_add (Nat.mul_le_mul_right interp hsc) (Nat.le_refl _)

/-- C6, amended: with the additional proviso `INTERPOLATION ≤ 25` (so that
the per-event residue of at most `INTERPOLATION - 1` plus the fixed
1000-sample snippet fits in the per-trigger 1024-sample stride), for every
event decoded in one cycle — under the claim's preconditions
`tag_cnt ≤ TRIGGER_LIMIT` and non-decreasing raw time samples — the
clamped-accumulation start offset gives a slice
`[start_index, start_index + 1000)` lying entirely inside the allocated
waveform buffer of `TRIGGER_LIMIT * 1024` samples, so every record's
waveform has the full fixed length.  (Without the proviso the claim fails;
see the counterexample at `INTERPOLATION = 32`.) -/
theorem c6_amended (interp : ℕ) (times : List ℕ)
    (hi : 1 ≤ interp) (h25 : interp ≤ 25)
    (hlen : times.length ≤ TRIGGER_LIMIT)
    (hmono : times.Chain' (· ≤ ·)) :
    ∀ p ∈ dataProcessIndices interp times,
      p.2 = p.1 + 1000 ∧ p.2 ≤ TRIGGER_LIMIT * 1024 := by
  intro p hp
  refine ⟨dpLoop_snd interp (1024 / interp) times 0 0 true p hp, ?_⟩
  have hstride : 1024 / interp * interp ≤ 1024 := Nat.div_mul_le_self 1024 interp
  cases times with
  | nil => simp [dataProcessIndices, dpLoop] at hp
  | cons t rest =>
    have hsnd := dpLoop_snd interp (1024 / interp) (t :: rest) 0 0 true p hp
    simp only [dataProcessIndices, dpLoop, if_true, List.mem_cons] at hp
    have hlen2 : rest.length + 1 ≤ TRIGGER_LIMIT := by
      simpa using hlen
    rcases hp with rfl | hp
    · -- first event: start index is just the residue
      have hres : t % interp < interp := Nat.mod_lt t (by omega)
      have : (0 + 0) * interp + t % interp + 1000 ≤ TRIGGER_LIMIT * 1024 := by
        have hlim : 1024 ≤ TRIGGER_LIMIT * 1024 := by norm_num [TRIGGER_LIMIT]
        omega
      simpa using this
    · have hb := dpLoop_fst_le interp (1024 / interp) hi rest (0 + 0) (t / interp) p hp
      have hb2 : p.1 ≤ rest.length * 1024 + (interp - 1) := by
        have h1 : (0 + 0 + rest.length * (1024 / interp)) * interp =
            rest.length * (1024 / interp * interp) := by ring
        have h2 : rest.length * (1024 / interp * interp) ≤ rest.length * 1024 :=
          Nat.mul_le_mul_left rest.length hstride
        omega
      have h3 : rest.length * 1024 ≤ (TRIGGER_LIMIT - 1) * 1024 :=
        Nat.mul_le_mul_right 1024 (by omega)
      have h4 : (TRIGGER_LIMIT - 1) * 1024 + 1024 = TRIGGER_LIMIT * 1024 := by
        norm_num [TRIGGER_LIMIT]
      omega

/-- C6, witness: the amended statement at `INTERPOLATION = 8` on a concrete
monotone three-event cycle. -/
theorem c6_witness :
    1 ≤ 8 ∧ 8 ≤ 25 ∧ ([0, 5000, 100000] : List ℕ).length ≤ TRIGGER_LIMIT ∧
    List.Chain' (· ≤ ·) ([0, 5000, 100000] : List ℕ) ∧
    (∀ p ∈ dataProcessIndices 8 [0, 5000, 100000],
      p.2 = p.1 + 1000 ∧ p.2 ≤ TRIGGER_LIMIT * 1024) :=
  ⟨by decide, by decide, by decide, by norm_num [List.chain'_cons],
   c6_amended 8 [0, 5000, 100000] (by decide) (by decide) (by decide)
     (by norm_num [List.chain'_cons])⟩

/-- The raw time samples of the C6 counterexample run: event `i` arrives at
sample `1024 * i`, except that the last event (index 9999) arrives 31
samples later — monotone, and each quotient delta equals the clamp bound. -/
def c6g (i : ℕ) : ℕ := 1024 * i + if i = 9999 then 31 else 0

/-- A full cycle of `TRIGGER_LIMIT = 10000` events with the `c6g` timing. -/
def c6Times : List ℕ := (List.range 10000).map c6g

/-- Unfolding of the first `__data_process` iteration (where `delta_clk = 0`
and `start_clk` stays 0): the head slice starts at the first residue. -/
theorem dpLoop_cons_true (interp gclk t : ℕ) (ts : List ℕ) :
    dpLoop interp gclk 0 0 true (t :: ts) =
      (t % interp, t % interp + 1000) :: dpLoop interp gclk 0 (t / interp) false ts := by
  simp [dpLoop]

/-- In the `INTERPOLATION = 32` run on `c6g` timing, the slice of the event
starting at index `i` (for `1 ≤ i ≤ 9999`) eventually produces the
out-of-range pair `(10239007, 10240007)`. -/
theorem c6_mem_aux :
    ∀ d i, i + d = 9999 → 1 ≤ i →
      (10239007, 10240007) ∈
        dpLoop 32 32 (32 * (i - 1)) (32 * (i - 1)) false ((List.range' i (d + 1)).map c6g) := by
  intro d
  induction d with
  | zero =>
    intro i h _
    have : i = 9999 := by omega
    subst this
    decide
  | succ d ih =>
    intro i h hi
    have hi9 : i ≠ 9999 := by omega
    rw [List.range'_succ, List.map_cons]
    have hg : c6g i = 1024 * i := by simp [c6g, hi9]
    rw [hg]
    simp only [dpLoop, Bool.false_eq_true, if_false]
    have h1 : 1024 * i / 32 = 32 * i := by omega
    have h2 : 1024 * i % 32 = 0 := by omega
    rw [h1, h2]
    have h3 : min (32 * i - 32 * (i - 1)) 32 = 32 := by
      have h30 : 32 * i - 32 * (i - 1) = 32 := by omega
      rw [h30]
      exact Nat.min_self 32
    have h4 : 32 * (i - 1) + min (32 * i - 32 * (i - 1)) 32 = 32 * (i + 1 - 1) := by
      rw [h3]; omega
    rw [h4]
    exact List.mem_cons_of_mem _ (ih (i + 1) (by omega) (by omega))

/-- C6, counterexample: at `INTERPOLATION = 32` (so `graphy_clk = 32`), a
cycle of exactly `tag_cnt = TRIGGER_LIMIT = 10000` events with monotone raw
time samples (`c6Times`, which satisfies every precondition of the claim)
produces the slice `[10239007, 10240007)`, whose end index 10240007 exceeds
the allocated waveform buffer of `TRIGGER_LIMIT * 1024 = 10240000` samples:
the clamp does not keep the slice inside the buffer, and numpy would
silently truncate that record's waveform below the fixed length. -/
theorem c6_counterexample :
    c6Times.length ≤ TRIGGER_LIMIT ∧
    List.Chain' (· ≤ ·) c6Times ∧
    (10239007, 10240007) ∈ dataProcessIndices 32 c6Times ∧
    TRIGGER_LIMIT * 1024 < 10240007 := by
  refine ⟨?_, ?_, ?_, by decide⟩
  · simp [c6Times, TRIGGER_LIMIT]
  · rw [c6Times, List.chain'_map]
    have h10000 : (10000 : ℕ) = 9999 + 1 := by norm_num
    rw [h10000, List.chain'_range_succ]
    intro m hm
    simp only [c6g]
    split_ifs <;> omega
  · rw [dataProcessIndices, c6Times]
    have hg32 : (1024 : ℕ) / 32 = 32 := by norm_num
    rw [hg32]
    have hrange : List.range 10000 = 0 :: List.range' 1 9999 := by
      rw [List.range_eq_range']
      rfl
    rw [hrange, List.map_cons]
    have hg0 : c6g 0 = 0 := by simp [c6g]
    rw [hg0, dpLoop_cons_true]
    refine List.mem_cons_of_mem _ ?_
    have h00 : (0 : ℕ) / 32 = 32 * (1 - 1) := by norm_num
    rw [h00]
    exact c6_mem_aux 9998 1 (by norm_num) (by norm_num)

end QSZ007
